import Mathlib

/-!
Verification of the gcp_agents repository: a Flask chat gateway with a
static agent/tool catalog (src/gcp_agents/agent/backend_api.py) and a
Streamlit dashboard client (src/gcp_agents/agent/frontend_app.py).

The backend is embedded as pure functions on explicit request values; the
external Vertex AI client, whose construction can raise, is modelled by an
`upstream : Option String` parameter (`none` = the client is created
without raising, `some e` = any call inside the `try` block raises an
exception with message `e`). The front-end's Streamlit session state is
embedded as an explicit state record transformed by the two callbacks.
-/

namespace GcpAgents

/-- Record shape of one entry of `AVAILABLE_AGENTS` in backend_api.py. -/
structure AgentDescriptor where
  id : String
  name : String
  description : String
  type : String
  resource_name : String
deriving DecidableEq, Repr

/-- Record shape of one entry of `PRE_BUILT_TOOLS` in backend_api.py. -/
structure ToolDescriptor where
  name : String
  category : String
  description : String
  type : String
deriving DecidableEq, Repr

/-- backend_api.py line 13: the configured custom-agent resource path. -/
def CUSTOM_AGENT_RESOURCE_NAME : String :=
  "projects/stately-moon-480119-h9/locations/global/agents/16e30e05-6c68-461f-921e-2d81f73541ed"

/-- backend_api.py lines 29-51: the static agent catalog. -/
def AVAILABLE_AGENTS : List AgentDescriptor := [
  { id := "product-agent-custom",
    name := "Product Inventory & Catalog Agent (Custom)",
    description := "Custom agent leveraging ProductCatalogTool (RAG) and ProductInventoryTool (Cloud Function).",
    type := "Custom Agent",
    resource_name := CUSTOM_AGENT_RESOURCE_NAME },
  { id := "free-agent-financial",
    name := "Financial Analysis Assistant",
    description := "Pre-built agent for general financial queries and market trends (Mock).",
    type := "Vertex AI Agent",
    resource_name := "mock-financial-agent" },
  { id := "free-agent-code",
    name := "Code Generation Helper",
    description := "Pre-built agent for generating Python snippets and debugging code (Mock).",
    type := "Vertex AI Agent",
    resource_name := "mock-code-agent" }
]

/-- backend_api.py lines 54-92: the static tool catalog. -/
def PRE_BUILT_TOOLS : List ToolDescriptor := [
  { name := "Vertex AI Search", category := "Vertex AI Native",
    description := "Grounding with your private data stores.", type := "RAG Tool" },
  { name := "Grounding with Google Search", category := "Vertex AI Native",
    description := "Real-time, public information search.", type := "Search Tool" },
  { name := "Cloud SQL - PostgreSQL", category := "GCP Connector",
    description := "Connects to a PostgreSQL database on Google Cloud SQL.", type := "Database Connector" },
  { name := "Google Calendar", category := "Google Connector",
    description := "Manages schedules and events via Google Calendar.", type := "Productivity Connector" },
  { name := "Jira Cloud", category := "Third-Party Connector",
    description := "Interacts with Jira for issue and project management.", type := "Productivity Connector" },
  { name := "Oracle DB", category := "Third-Party Connector",
    description := "Connects to an Oracle Database instance.", type := "Database Connector" }
]

/-- backend_api.py lines 105-108: `GET /api/v1/agents` returns the agent list. -/
def list_agents : List AgentDescriptor := AVAILABLE_AGENTS

/-- backend_api.py lines 110-113: `GET /api/v1/tools` returns the tool list. -/
def list_tools : List ToolDescriptor := PRE_BUILT_TOOLS

/-- One element of the `history` field of a chat request: a `{role, text}` pair. -/
structure HistoryEntry where
  role : String
  text : String
deriving DecidableEq, Repr

/-- The JSON body of a `POST /api/v1/chat` request; `none` models an absent key
(Python's `data.get(...)` returning `None`). -/
structure ChatBody where
  agentId : Option String
  prompt : Option String
  history : Option (List HistoryEntry)
deriving Repr

/-- The possible HTTP outcomes of `chat_with_agent`.
`typeError` is the unhandled Python `TypeError` raised on line 134 when
`agent_config` is `None` and `agent_config['name']` is subscripted; Flask
surfaces it as an internal server error (500), not a JSON body. -/
inductive ChatResult where
  | ok (response : String)
  | invalidRequest (error : String)
  | upstreamError (error : String)
  | typeError
deriving DecidableEq, Repr

/-- The HTTP status code each outcome is served with. -/
def ChatResult.status : ChatResult → Nat
  | .ok _ => 200
  | .invalidRequest _ => 400
  | .upstreamError _ => 500
  | .typeError => 500

/-- Whether the outcome is a success (HTTP 200) response. -/
def ChatResult.isSuccess : ChatResult → Bool
  | .ok _ => true
  | _ => false

/-- Python falsiness of an optional string: `None` and `""` are falsy
(line 125 `if not agent_id or not user_prompt`). -/
def pyFalsy : Option String → Bool
  | none => true
  | some s => s == ""

/-- backend_api.py line 134: the mock response f-string. -/
def mockResponse (agentName userPrompt : String) : String :=
  "Selected agent '" ++ agentName ++ "' is running in mock mode. You asked: '"
    ++ userPrompt ++ "'"

/-- backend_api.py lines 165-170: the hard-coded custom-agent response f-string. -/
def customAgentResponse (agentName userPrompt : String) : String :=
  "**Response from your Custom Product Agent (" ++ agentName
    ++ "):** I have successfully processed your request: '" ++ userPrompt
    ++ "'. If this were live, I would now be consulting the RAG tool (ProductCatalogTool) or the Cloud Function (ProductInventoryTool) using my defined tools."

/-- backend_api.py lines 115-180: `POST /api/v1/chat`.
`upstream = none` means `aiplatform.gapic.ChatServiceClient(...)` (and the rest
of the `try` block) raises nothing; `upstream = some e` means the `try` block
raises an exception whose `str` is `e`, caught on line 178. -/
def chat_with_agent (upstream : Option String) (data : ChatBody) : ChatResult :=
  let agent_id := data.agentId
  let user_prompt := data.prompt
  let _history := data.history.getD []   -- line 123: read but never used afterwards
  if pyFalsy agent_id || pyFalsy user_prompt then
    ChatResult.invalidRequest "Missing agentId or prompt"
  else
    -- line 129: next((a for a in AVAILABLE_AGENTS if a['id'] == agent_id), None)
    match AVAILABLE_AGENTS.find? (fun a => a.id == agent_id.getD "") with
    | none =>
      -- line 131 takes the mock branch, then line 134 subscripts None
      ChatResult.typeError
    | some agent_config =>
      if agent_config.type != "Custom Agent" then
        ChatResult.ok (mockResponse agent_config.name (user_prompt.getD ""))
      else
        match upstream with
        | some e =>
          ChatResult.upstreamError
            ("Vertex AI Agent Error: " ++ e ++ ". Check ADC and agent configuration.")
        | none =>
          ChatResult.ok (customAgentResponse agent_config.name (user_prompt.getD ""))

/-- The spec's `chat(agentId, prompt, history)` operation: a request body in
which all three keys are present. -/
def chat (upstream : Option String) (agentId userPrompt : String)
    (history : List HistoryEntry) : ChatResult :=
  chat_with_agent upstream ⟨some agentId, some userPrompt, some history⟩

/-! ### Dashboard client (frontend_app.py) -/

/-- One message of `st.session_state.messages`: a `{role, content}` dict. -/
structure ChatTurn where
  role : String
  content : String
deriving DecidableEq, Repr

/-- The Streamlit session state used by the two callbacks
(frontend_app.py lines 15-20 and 46). -/
structure SessionState where
  agents : List AgentDescriptor
  selected_agent_id : Option String
  messages : List ChatTurn
  selected_agent_name : Option String
deriving Repr

/-- frontend_app.py lines 40-47: the agent-selection callback. Returns `none`
when `next(...)` on line 45 finds no agent with the chosen id and raises
`StopIteration` (unreachable through the UI, whose options come from
`agents`). -/
def select_agent_callback (s : SessionState) (agent_selector : String) :
    Option SessionState :=
  let s := { s with selected_agent_id := some agent_selector }
  let s := { s with messages := [] }   -- line 43: clear chat history
  match s.agents.find? (fun a => a.id == agent_selector) with
  | none => none
  | some selected_agent => some { s with selected_agent_name := some selected_agent.name }

/-- The outcome of the `requests.post` round-trip in `handle_user_input`:
either the parsed JSON body's optional `response` field (line 90), or a
`RequestException` with message `e` (line 95). -/
inductive RequestOutcome where
  | success (responseField : Option String)
  | transportError (e : String)
deriving Repr

/-- Python `messages[-1] = x`. At both call sites in `handle_user_input` the
list is non-empty (two turns were just appended), so the `IndexError` case of
the real assignment is unreachable. -/
def setLast (l : List ChatTurn) (x : ChatTurn) : List ChatTurn :=
  l.dropLast ++ [x]

/-- frontend_app.py line 81: the history sent with the chat call — the
transcript minus the trailing placeholder, mapped to `{role, text}` pairs. -/
def sentHistory (messages : List ChatTurn) : List HistoryEntry :=
  messages.dropLast.map (fun m => ⟨m.role, m.content⟩)

/-- frontend_app.py lines 61-102: prompt submission. Appends the `user` turn
and the `thinking` placeholder, re-renders (`st.rerun`), issues the chat call,
then replaces the placeholder with the response or an error turn. -/
def handle_user_input (s : SessionState) (userPrompt : String)
    (outcome : RequestOutcome) : SessionState :=
  let s := { s with messages := s.messages ++ [ChatTurn.mk "user" userPrompt] }
  let s := { s with messages := s.messages ++ [ChatTurn.mk "assistant" "🤔 Thinking..."] }
  match outcome with
  | .success responseField =>
    let agent_response :=
      responseField.getD "Could not get a valid response from the agent."
    { s with messages := setLast s.messages ⟨"assistant", agent_response⟩ }
  | .transportError e =>
    let error_message :=
      "Backend Request Error: " ++ e ++ ". Ensure the Flask API is running correctly."
    { s with messages := setLast s.messages ⟨"error", error_message⟩ }

/-! ### Helper lemmas -/

/-- String concatenation is associative (needed to re-bracket the response
templates around the echoed prompt). -/
theorem str_append_assoc (a b c : String) : (a ++ b) ++ c = a ++ (b ++ c) := by
  cases a; cases b; cases c
  show String.mk _ = String.mk _
  simp [String.append, List.append_assoc]

/-! ### Theorems for the claims -/

/-- C8: `listAgents()` and `listTools()` are read operations returning the
entire static agent list (three descriptors) and tool list (six descriptors)
as ordered sequences in insertion order; being pure constants of the
embedding, they modify nothing. -/
theorem list_agents_and_tools_static :
    list_agents = AVAILABLE_AGENTS ∧ list_agents.length = 3 ∧
    list_tools = PRE_BUILT_TOOLS ∧ list_tools.length = 6 ∧
    list_agents.map AgentDescriptor.id
      = ["product-agent-custom", "free-agent-financial", "free-agent-code"] ∧
    list_tools.map ToolDescriptor.name
      = ["Vertex AI Search", "Grounding with Google Search", "Cloud SQL - PostgreSQL",
         "Google Calendar", "Jira Cloud", "Oracle DB"] :=
  ⟨rfl, rfl, rfl, rfl, rfl, rfl⟩

/-- C7: the gateway never reads `history`: for every upstream environment,
agentId and prompt, any two history values give the same response. -/
theorem chat_independent_of_history (u : Option String) (agentId userPrompt : String)
    (h1 h2 : List HistoryEntry) :
    chat u agentId userPrompt h1 = chat u agentId userPrompt h2 := rfl

/-- C4: `chat("free-agent-financial", "What is AAPL doing?", history)` returns,
for any history (and any upstream environment), exactly the mock response
string of the spec's example. -/
theorem chat_financial_example (u : Option String) (history : List HistoryEntry) :
    chat u "free-agent-financial" "What is AAPL doing?" history =
      ChatResult.ok "Selected agent 'Financial Analysis Assistant' is running in mock mode. You asked: 'What is AAPL doing?'" :=
  rfl

/-- C3: whenever `agentId` or `prompt` is missing (`none`) or empty (falsy in
Python), the chat endpoint returns exactly the `InvalidRequest` failure with
the descriptive message "Missing agentId or prompt" at HTTP status 400, and
nothing else. -/
theorem chat_missing_fields_invalid (u : Option String) (data : ChatBody)
    (h : pyFalsy data.agentId = true ∨ pyFalsy data.prompt = true) :
    chat_with_agent u data = ChatResult.invalidRequest "Missing agentId or prompt" ∧
    (chat_with_agent u data).status = 400 := by
  have hc : (pyFalsy data.agentId || pyFalsy data.prompt) = true := by
    rcases h with h | h <;> simp [h]
  constructor
  · unfold chat_with_agent
    simp [hc]
  · unfold chat_with_agent
    simp [hc, ChatResult.status]

/-- Witness for C3 at the spec's concrete example `chat("", "hello", [])`. -/
theorem chat_missing_fields_invalid_witness :
    chat_with_agent none ⟨some "", some "hello", some []⟩
        = ChatResult.invalidRequest "Missing agentId or prompt" ∧
      (chat_with_agent none ⟨some "", some "hello", some []⟩).status = 400 :=
  chat_missing_fields_invalid none ⟨some "", some "hello", some []⟩ (Or.inl (by decide))

/-- Re-bracketing of the custom-agent template: it starts with `**`, then the
literal `Response from your Custom Product Agent`, then the rest. -/
theorem customAgentResponse_decomp (n p : String) :
    customAgentResponse n p
      = "**" ++ "Response from your Custom Product Agent"
        ++ (" (" ++ n ++ "):** I have successfully processed your request: '" ++ p
            ++ "'. If this were live, I would now be consulting the RAG tool (ProductCatalogTool) or the Cloud Function (ProductInventoryTool) using my defined tools.") := by
  simp only [customAgentResponse]
  rw [show ("**Response from your Custom Product Agent (" : String)
      = ("**" ++ "Response from your Custom Product Agent") ++ " (" from rfl]
  simp only [str_append_assoc]

/-- C1 (counterexample): with the non-empty agentId "no-such-agent" — absent
from the catalog — and the non-empty prompt "hi", the gateway does not return
a successful mock-string response: line 134 subscripts the `None` lookup
result and the handler dies with an unhandled `TypeError` (HTTP 500). -/
theorem chat_unknown_agent_crashes :
    chat none "no-such-agent" "hi" [] = ChatResult.typeError ∧
    (chat none "no-such-agent" "hi" []).isSuccess = false ∧
    (chat none "no-such-agent" "hi" []).status = 500 :=
  ⟨rfl, rfl, rfl⟩

/-- C1 (amended): for non-empty agentId and prompt with no catalog entry of
type `Custom Agent` under that id, the gateway never raises `UpstreamError`;
if the agent is present (with another type) it returns a successful mock
string containing the prompt verbatim, but if the agent is absent the handler
instead fails with the unhandled `TypeError` of line 134. -/
theorem chat_mock_or_noncustom_no_upstream (u : Option String)
    (agentId userPrompt : String) (history : List HistoryEntry)
    (ha : agentId ≠ "") (hp : userPrompt ≠ "")
    (hnc : ∀ a ∈ AVAILABLE_AGENTS, a.id = agentId → a.type ≠ "Custom Agent") :
    (∀ e, chat u agentId userPrompt history ≠ ChatResult.upstreamError e) ∧
    (∀ a ∈ AVAILABLE_AGENTS, a.id = agentId →
      ∃ x y, chat u agentId userPrompt history = ChatResult.ok (x ++ userPrompt ++ y)) ∧
    ((∀ a ∈ AVAILABLE_AGENTS, a.id ≠ agentId) →
      chat u agentId userPrompt history = ChatResult.typeError) := by
  have hcond : (pyFalsy (some agentId) || pyFalsy (some userPrompt)) = false := by
    simp [pyFalsy, ha, hp]
  simp only [chat, chat_with_agent, Option.getD_some, hcond, Bool.false_eq_true, if_false]
  cases hfind : AVAILABLE_AGENTS.find? (fun a => a.id == agentId) with
  | none =>
    refine ⟨by simp, ?_, fun _ => rfl⟩
    intro a hmem heq
    rw [List.find?_eq_none] at hfind
    exact absurd (by simpa using heq) (hfind a hmem)
  | some a =>
    have hmem := List.mem_of_find?_eq_some hfind
    have hpa := List.find?_some hfind
    simp only [beq_iff_eq] at hpa
    have hty : (a.type != "Custom Agent") = true := by
      simpa using hnc a hmem hpa
    simp only [hty, if_true]
    refine ⟨by simp, ?_, ?_⟩
    · intro b hb hbeq
      exact ⟨("Selected agent '" ++ a.name) ++ "' is running in mock mode. You asked: '",
        "'", rfl⟩
    · intro hnone
      exact absurd hpa (hnone a hmem)

/-- Witness for C1 (amended) at `chat("free-agent-financial", "hi", [])`. -/
theorem chat_mock_or_noncustom_no_upstream_witness :
    (∀ e, chat none "free-agent-financial" "hi" [] ≠ ChatResult.upstreamError e) ∧
    (∀ a ∈ AVAILABLE_AGENTS, a.id = "free-agent-financial" →
      ∃ x y, chat none "free-agent-financial" "hi" [] = ChatResult.ok (x ++ "hi" ++ y)) ∧
    ((∀ a ∈ AVAILABLE_AGENTS, a.id ≠ "free-agent-financial") →
      chat none "free-agent-financial" "hi" [] = ChatResult.typeError) :=
  chat_mock_or_noncustom_no_upstream none "free-agent-financial" "hi" []
    (by decide) (by decide) (by decide)

/-- C2: a chat call whose agentId matches no catalog entry never yields a
success (HTTP 200) response — empty ids are rejected with `InvalidRequest`
(400), and unknown non-empty ids crash the handler (500). -/
theorem chat_unknown_agent_rejected (u : Option String) (agentId userPrompt : String)
    (history : List HistoryEntry)
    (hm : ∀ a ∈ AVAILABLE_AGENTS, agentId ≠ a.id) :
    (chat u agentId userPrompt history).isSuccess = false := by
  simp only [chat, chat_with_agent]
  split
  · rfl
  · split
    · rfl
    · next a hfind =>
      exfalso
      have hmem := List.mem_of_find?_eq_some hfind
      have hpa := List.find?_some hfind
      simp only [Option.getD_some, beq_iff_eq] at hpa
      exact hm a hmem hpa.symm

/-- Witness for C2 at the unknown id "ghost-agent". -/
theorem chat_unknown_agent_rejected_witness :
    (chat none "ghost-agent" "hello" []).isSuccess = false :=
  chat_unknown_agent_rejected none "ghost-agent" "hello" [] (by decide)

/-- C5: on the success path, `chat("product-agent-custom", prompt, history)`
with a non-empty prompt returns exactly the hard-coded template naming the
agent; the response contains the literal substring
`Response from your Custom Product Agent` and echoes the prompt verbatim. -/
theorem chat_custom_agent_success (u : Option String) (userPrompt : String)
    (history : List HistoryEntry) (r : String) (hp : userPrompt ≠ "")
    (hok : chat u "product-agent-custom" userPrompt history = ChatResult.ok r) :
    r = customAgentResponse "Product Inventory & Catalog Agent (Custom)" userPrompt ∧
    (∃ x y, r = x ++ "Response from your Custom Product Agent" ++ y) ∧
    (∃ x y, r = x ++ userPrompt ++ y) := by
  have hbp : (userPrompt == "") = false := by simp [hp]
  have heval : chat u "product-agent-custom" userPrompt history = (match u with
      | some e => ChatResult.upstreamError
          ("Vertex AI Agent Error: " ++ e ++ ". Check ADC and agent configuration.")
      | none => ChatResult.ok
          (customAgentResponse "Product Inventory & Catalog Agent (Custom)" userPrompt)) := by
    cases u <;> simp [chat, chat_with_agent, pyFalsy, hbp, AVAILABLE_AGENTS]
  rw [heval] at hok
  cases u with
  | some e => cases hok
  | none =>
    injection hok with hr
    subst hr
    refine ⟨rfl, ?_, ?_⟩
    · exact ⟨"**", " (" ++ "Product Inventory & Catalog Agent (Custom)"
        ++ "):** I have successfully processed your request: '" ++ userPrompt
        ++ "'. If this were live, I would now be consulting the RAG tool (ProductCatalogTool) or the Cloud Function (ProductInventoryTool) using my defined tools.",
        by rw [customAgentResponse_decomp]⟩
    · exact ⟨"**Response from your Custom Product Agent ("
        ++ "Product Inventory & Catalog Agent (Custom)"
        ++ "):** I have successfully processed your request: '",
        "'. If this were live, I would now be consulting the RAG tool (ProductCatalogTool) or the Cloud Function (ProductInventoryTool) using my defined tools.",
        rfl⟩

/-- Witness for C5 at the spec's example prompt "Check stock for SKU123". -/
theorem chat_custom_agent_success_witness :
    customAgentResponse "Product Inventory & Catalog Agent (Custom)" "Check stock for SKU123"
      = customAgentResponse "Product Inventory & Catalog Agent (Custom)" "Check stock for SKU123" ∧
    (∃ x y, customAgentResponse "Product Inventory & Catalog Agent (Custom)" "Check stock for SKU123"
      = x ++ "Response from your Custom Product Agent" ++ y) ∧
    (∃ x y, customAgentResponse "Product Inventory & Catalog Agent (Custom)" "Check stock for SKU123"
      = x ++ "Check stock for SKU123" ++ y) :=
  chat_custom_agent_success none "Check stock for SKU123" []
    (customAgentResponse "Product Inventory & Catalog Agent (Custom)" "Check stock for SKU123")
    (by decide) rfl

/-- C6: submitting a prompt appends exactly one `user` turn followed by
exactly one `assistant` or `error` turn to the transcript — whether the chat
call succeeds or fails — and changes nothing else in the session state. -/
theorem handle_user_input_appends_two_turns (s : SessionState) (p : String)
    (outcome : RequestOutcome) :
    ∃ t : ChatTurn,
      (handle_user_input s p outcome).messages
        = s.messages ++ [ChatTurn.mk "user" p, t] ∧
      (t.role = "assistant" ∨ t.role = "error") ∧
      (handle_user_input s p outcome).agents = s.agents ∧
      (handle_user_input s p outcome).selected_agent_id = s.selected_agent_id ∧
      (handle_user_input s p outcome).selected_agent_name = s.selected_agent_name := by
  cases outcome with
  | success rf =>
    refine ⟨⟨"assistant", rf.getD "Could not get a valid response from the agent."⟩,
      ?_, Or.inl rfl, rfl, rfl, rfl⟩
    simp [handle_user_input, setLast, List.dropLast_concat]
  | transportError e =>
    refine ⟨⟨"error", "Backend Request Error: " ++ e ++ ". Ensure the Flask API is running correctly."⟩,
      ?_, Or.inr rfl, rfl, rfl, rfl⟩
    simp [handle_user_input, setLast, List.dropLast_concat]

/-- C9: when the selection callback completes, the transcript has been reset
to the empty sequence, `selectedAgentId` is the newly chosen id, and the
cached agent list is untouched. -/
theorem select_agent_resets_transcript (s : SessionState) (chosen : String)
    (s2 : SessionState) (h : select_agent_callback s chosen = some s2) :
    s2.messages = [] ∧ s2.selected_agent_id = some chosen ∧ s2.agents = s.agents := by
  simp only [select_agent_callback] at h
  cases hf : s.agents.find? (fun a => a.id == chosen) with
  | none => rw [hf] at h; cases h
  | some a =>
    rw [hf] at h
    cases h
    exact ⟨rfl, rfl, rfl⟩

/-- Witness for C9: switching to "free-agent-code" from a state with a
non-empty transcript. -/
theorem select_agent_resets_transcript_witness :
    (SessionState.mk AVAILABLE_AGENTS (some "free-agent-code") []
        (some "Code Generation Helper")).messages = [] ∧
    (SessionState.mk AVAILABLE_AGENTS (some "free-agent-code") []
        (some "Code Generation Helper")).selected_agent_id = some "free-agent-code" ∧
    (SessionState.mk AVAILABLE_AGENTS (some "free-agent-code") []
        (some "Code Generation Helper")).agents
      = (SessionState.mk AVAILABLE_AGENTS none [ChatTurn.mk "user" "hi"] none).agents :=
  select_agent_resets_transcript
    (SessionState.mk AVAILABLE_AGENTS none [ChatTurn.mk "user" "hi"] none)
    "free-agent-code"
    (SessionState.mk AVAILABLE_AGENTS (some "free-agent-code") []
      (some "Code Generation Helper"))
    rfl

/-- C10: a chat request body with non-empty agentId and prompt and no
`history` key is treated exactly as if `history` were the empty list, and the
missing key never produces the `InvalidRequest` error. -/
theorem chat_absent_history_defaults (u : Option String) (agentId userPrompt : String)
    (ha : agentId ≠ "") (hp : userPrompt ≠ "") :
    chat_with_agent u ⟨some agentId, some userPrompt, none⟩
      = chat_with_agent u ⟨some agentId, some userPrompt, some []⟩ ∧
    chat_with_agent u ⟨some agentId, some userPrompt, none⟩
      ≠ ChatResult.invalidRequest "Missing agentId or prompt" := by
  refine ⟨rfl, ?_⟩
  have hcond : (pyFalsy (some agentId) || pyFalsy (some userPrompt)) = false := by
    simp [pyFalsy, ha, hp]
  simp only [chat_with_agent, Option.getD_some, hcond, Bool.false_eq_true, if_false]
  split
  · simp
  · split
    · simp
    · cases u <;> simp

/-- Witness for C10 at agentId "free-agent-code" and prompt "hi". -/
theorem chat_absent_history_defaults_witness :
    chat_with_agent none ⟨some "free-agent-code", some "hi", none⟩
      = chat_with_agent none ⟨some "free-agent-code", some "hi", some []⟩ ∧
    chat_with_agent none ⟨some "free-agent-code", some "hi", none⟩
      ≠ ChatResult.invalidRequest "Missing agentId or prompt" :=
  chat_absent_history_defaults none "free-agent-code" "hi" (by decide) (by decide)

end GcpAgents
